import Mathlib

/-!
Verification development for the MTG AI search backend (FastAPI service).

The Python sources embedded here are `app/main.py` (translation
orchestrator `AIService.natural_language_to_scryfall`, rule-based
translator `AIService.fallback_mapping`, result ranker
`ScryfallService.sort_cards` with its nested key functions, and the
`/api/search` endpoint `search_cards`), `app/preprocessor.py`
(`MTGPreprocessor.preprocess_input`), and `app/simple_encryption.py`
(`SimpleEncryption.encrypt` / `SimpleEncryption.decrypt`).

Modelling conventions:
- Python strings are Lean `String`s; `str.lower()` is modelled as
  ASCII lowercasing (every keyword the code lowercases or searches
  for is ASCII or Chinese, so the difference to full Unicode
  lowercasing is irrelevant to every statement below).
- `a in s` (substring test) and `s.replace(old, new)` are modelled
  character-exactly on `List Char` (left-to-right, non-overlapping
  replacement of all occurrences, as CPython implements them).
- Network calls (`_call_ai_api`, the Scryfall HTTP request) are
  modelled as oracle function parameters; an exception is `none` /
  `Except.error`.  All theorems quantify over the oracles.
- JSON numbers for `cmc` are modelled as `Int` (the code only ever
  compares them against integer thresholds).
- `sorted(..., key=k, reverse=r)` is modelled by the stable
  `List.insertionSort`; for `reverse=True` the comparator is flipped,
  which agrees with CPython on the sorted key order (no statement
  below concerns the relative order of tied records).
-/

set_option maxRecDepth 4000

/-- ASCII lowercasing of one character, the fragment of `str.lower()`
relevant to this code base. -/
def asciiLowerChar (c : Char) : Char :=
  if 65 ≤ c.toNat ∧ c.toNat ≤ 90 then Char.ofNat (c.toNat + 32) else c

/-- Model of Python `s.lower()` (ASCII fragment). -/
def pyLower (s : String) : String := String.mk (s.data.map asciiLowerChar)

/-- Substring test on character lists: does `needle` occur inside the
second argument?  Model of Python `needle in hay`. -/
def infB (needle : List Char) : List Char → Bool
  | [] => needle.isEmpty
  | c :: rest => needle.isPrefixOf (c :: rest) || infB needle rest

/-- Model of Python `sub in hay` for strings. -/
def pyContains (hay sub : String) : Bool := infB sub.data hay.data

/-- Replace every occurrence of `key` by `rep`, scanning left to right
without overlap — the semantics of CPython `str.replace` for a
non-empty pattern.  `fuel` is an upper bound on the number of steps;
it is instantiated with the length of the input, which suffices. -/
def replaceAllFuel (key rep : List Char) : Nat → List Char → List Char
  | _, [] => []
  | 0, s => s
  | Nat.succ fuel, c :: rest =>
    if key ≠ [] ∧ key.isPrefixOf (c :: rest) then
      rep ++ replaceAllFuel key rep fuel (List.drop key.length (c :: rest))
    else
      c :: replaceAllFuel key rep fuel rest

/-- Model of Python `s.replace(old, new)` (all occurrences). -/
def pyReplace (s old new : String) : String :=
  String.mk (replaceAllFuel old.data new.data s.data.length s.data)

/-- Lexicographic comparison of character lists by code point —
the semantics of Python string `<=`. -/
def lexLeB : List Char → List Char → Bool
  | [], _ => true
  | _ :: _, [] => false
  | a :: as, b :: bs => if a = b then lexLeB as bs else decide (a.toNat < b.toNat)

/-- Python string `<=` as a Bool. -/
def strLeB (a b : String) : Bool := lexLeB a.data b.data

/-- The `english_slang_mapping` dict of `MTGPreprocessor.preprocess_input`
(`app/preprocessor.py`), in insertion order. -/
def english_slang_mapping : List (String × String) :=
  [("hate bears", "2/2 creatures with disruptive abilities"),
   ("bolt test", "creatures that can be killed by Lightning Bolt"),
   ("dies to removal", "creatures easily removed"),
   ("dork", "small utility creatures"),
   ("fatty", "large expensive creatures"),
   ("evasion", "flying, menace, or unblockable"),
   ("removal", "destroy or exile effects"),
   ("cantrip", "spells that draw a card"),
   ("wrath", "destroy all creatures"),
   ("burn", "direct damage spells"),
   ("engine", "cards that generate card advantage"),
   ("value", "card advantage effects"),
   ("curve", "mana curve considerations"),
   ("tempo", "time advantage strategies"),
   ("aggro", "aggressive low-cost strategies"),
   ("control", "defensive control strategies"),
   ("combo", "combination strategies"),
   ("midrange", "medium-cost strategies"),
   ("finisher", "game-winning cards"),
   ("staple", "commonly used cards")]

/-- The `abbreviation_mapping` dict of `MTGPreprocessor.preprocess_input`,
in insertion order. -/
def abbreviation_mapping : List (String × String) :=
  [("cmc", "mana value"),
   ("mv", "mana value"),
   ("pow", "power"),
   ("tou", "toughness"),
   ("pt", "power and toughness"),
   ("loy", "loyalty"),
   ("kw", "keyword"),
   ("o:", "oracle text:"),
   ("c:", "color:"),
   ("t:", "type:"),
   ("r:", "rarity:"),
   ("is:", "special:")]

/-- Apply an ordered list of `(key, replacement)` pairs by repeated
`str.replace`, exactly as the two English loops of
`preprocess_input` do. -/
def applyReplacements (rules : List (String × String)) (t : String) : String :=
  rules.foldl (fun acc p => pyReplace acc p.1 p.2) t

/-- The English branch of `MTGPreprocessor.preprocess_input`: the slang
table is applied first, then the abbreviation table. -/
def preprocess_en (t : String) : String :=
  applyReplacements abbreviation_mapping (applyReplacements english_slang_mapping t)

/-- The glossary the Chinese branch reads from `mtg_glossary.json`.
The JSON file is not part of the source tree, so the rules are kept
abstract: a regex rule is a function that either rewrites the text or
fails (`none` models `re.sub` raising), mirroring the per-rule
`try/except` in `preprocess_input`; literal term pairs are applied
with `str.replace` (which cannot raise on strings, so its `try` is a
no-op). -/
structure Glossary where
  regex_rules : List (String → Option String)
  terms : List (String × String)

/-- The Chinese branch of `preprocess_input`: every regex rule is
attempted in order and a failing rule is skipped with the text left
unchanged (`Option.getD`), then every term pair is substituted. -/
def preprocess_zh (g : Glossary) (t : String) : String :=
  (g.regex_rules.foldl (fun acc r => (r acc).getD acc) t
    |> fun t1 => g.terms.foldl (fun acc p => pyReplace acc p.1 p.2) t1)

/-- `MTGPreprocessor.preprocess_input(user_input, language)`. -/
def preprocess_input (g : Glossary) (user_input : String) (language : String) : String :=
  if language = "zh" then preprocess_zh g user_input
  else if language = "en" then preprocess_en user_input
  else user_input

/-- `preprocess_mtg_query` (module-level convenience wrapper). -/
def preprocess_mtg_query (g : Glossary) (user_input : String) (language : String) : String :=
  preprocess_input g user_input language

example : preprocess_en "wrath" = "destroy all creatures" := by decide

example : preprocess_en "hate bears" =
    "2/2 creatures with disrupower and toughnessive abilities" := by decide

/-- Emit the query-fragment conditions of an ordered guard table: a
table entry `(b, s)` appends the single fragment `s` exactly when its
guard `b` holds — the shape of the long `if ... : conditions.append(...)`
chains in `AIService.fallback_mapping`.  Nested `if/elif` chains of the
source are encoded as entries with compound (mutually exclusive)
guards. -/
def emitConds : List (Bool × String) → List String
  | [] => []
  | p :: t => (if p.1 then [p.2] else []) ++ emitConds t

/-- Python `"".join(sorted(colors_found))`: sort the detected
single-letter color strings lexicographically and concatenate. -/
def sortedJoin (cs : List String) : String :=
  String.join (List.insertionSort (fun a b => strLeB a b = true) cs)

/-- The color block of `fallback_mapping`: with more than one detected
color a single combined `ci=` fragment is emitted; with exactly one, a
single-color `ci=` fragment; otherwise the colorless / multicolor
`elif` tests fire. -/
def color_conds (cf : List String) (hasColorless hasMulticolor : Bool) : List String :=
  if 1 < cf.length then ["ci=" ++ sortedJoin cf]
  else if cf.length = 1 then ["ci=" ++ cf.headD ""]
  else if hasColorless then ["ci=colorless"]
  else if hasMulticolor then ["ci=multicolor"]
  else []

/-- Chinese color detection of `fallback_mapping` (append order of the
source: g, u, r, b, w). -/
def colors_found_zh (ql : String) : List String :=
  emitConds
    [(pyContains ql "绿色" || pyContains ql "绿", "g"),
     (pyContains ql "蓝色" || pyContains ql "蓝", "u"),
     (pyContains ql "红色" || pyContains ql "红", "r"),
     (pyContains ql "黑色" || pyContains ql "黑", "b"),
     (pyContains ql "白色" || pyContains ql "白", "w")]

/-- English color detection of `fallback_mapping`. -/
def colors_found_en (ql : String) : List String :=
  emitConds
    [(pyContains ql "green", "g"),
     (pyContains ql "blue", "u"),
     (pyContains ql "red", "r"),
     (pyContains ql "black", "b"),
     (pyContains ql "white", "w")]

/-- The Chinese guard table of `fallback_mapping` after the color
block, in source order (guilds, card types, keyword abilities, special
card types, rarity, the nested mana-value / power / toughness chains,
special keywords, then the slang table).  The `elif` chains are encoded
with compound guards that reproduce their first-match semantics. -/
def zh_table (ql : String) : List (Bool × String) :=
  [(pyContains ql "阿佐里乌斯", "ci=azorius"),
   (pyContains ql "西米克", "ci=simic"),
   (pyContains ql "拉铎斯", "ci=rakdos"),
   (pyContains ql "班特", "ci=bant"),
   (pyContains ql "艾斯波", "ci=esper"),
   (pyContains ql "格利极斯", "ci=grixis"),
   (pyContains ql "生物", "t:creature"),
   (pyContains ql "瞬间", "t:instant"),
   (pyContains ql "法术", "t:sorcery"),
   (pyContains ql "神器", "t:artifact"),
   (pyContains ql "结界", "t:enchantment"),
   (pyContains ql "鹏洛客", "t:planeswalker"),
   (pyContains ql "地", "t:land"),
   (pyContains ql "传奇", "t:legend"),
   (pyContains ql "人鱼", "t:merfolk"),
   (pyContains ql "地精", "t:goblin"),
   (pyContains ql "飞行", "kw:flying"),
   (pyContains ql "敏捷", "kw:haste"),
   (pyContains ql "先攻", "kw:first strike"),
   (pyContains ql "警戒", "kw:vigilance"),
   (pyContains ql "死触", "kw:deathtouch"),
   (pyContains ql "生命链接", "kw:lifelink"),
   (pyContains ql "威胁", "kw:menace"),
   (pyContains ql "延势", "kw:reach"),
   (pyContains ql "践踏", "kw:trample"),
   (pyContains ql "白板", "is:vanilla"),
   (pyContains ql "熊" && pyContains ql "2/2", "is:bear"),
   (pyContains ql "分体", "is:split"),
   (pyContains ql "转化", "is:transform"),
   (pyContains ql "融合", "is:meld"),
   (pyContains ql "双面", "is:dfc"),
   (pyContains ql "咒语", "is:spell"),
   (pyContains ql "永久物", "is:permanent"),
   (pyContains ql "历史", "is:historic"),
   (pyContains ql "队伍", "is:party"),
   (pyContains ql "普通", "r:common"),
   (pyContains ql "非普通", "r:uncommon"),
   (pyContains ql "稀有", "r:rare"),
   (pyContains ql "神话", "r:mythic"),
   ((pyContains ql "法力值" || pyContains ql "费用") &&
      (pyContains ql "小于" || pyContains ql "以下") && pyContains ql "3", "mv<=3"),
   ((pyContains ql "法力值" || pyContains ql "费用") &&
      (pyContains ql "小于" || pyContains ql "以下") && !pyContains ql "3" &&
      pyContains ql "2", "mv<=2"),
   ((pyContains ql "法力值" || pyContains ql "费用") &&
      (pyContains ql "小于" || pyContains ql "以下") && !pyContains ql "3" &&
      !pyContains ql "2" && pyContains ql "1", "mv<=1"),
   ((pyContains ql "法力值" || pyContains ql "费用") &&
      !(pyContains ql "小于" || pyContains ql "以下") &&
      (pyContains ql "大于" || pyContains ql "以上") && pyContains ql "5", "mv>=5"),
   ((pyContains ql "法力值" || pyContains ql "费用") &&
      !(pyContains ql "小于" || pyContains ql "以下") &&
      (pyContains ql "大于" || pyContains ql "以上") && !pyContains ql "5" &&
      pyContains ql "4", "mv>=4"),
   ((pyContains ql "法力值" || pyContains ql "费用") &&
      !(pyContains ql "小于" || pyContains ql "以下") &&
      (pyContains ql "大于" || pyContains ql "以上") && !pyContains ql "5" &&
      !pyContains ql "4" && pyContains ql "6", "mv>=6"),
   (pyContains ql "力量" && (pyContains ql "大于" || pyContains ql "以上") &&
      pyContains ql "4", "pow>=4"),
   (pyContains ql "力量" && (pyContains ql "大于" || pyContains ql "以上") &&
      !pyContains ql "4" && pyContains ql "5", "pow>=5"),
   (pyContains ql "力量" && (pyContains ql "大于" || pyContains ql "以上") &&
      !pyContains ql "4" && !pyContains ql "5" && pyContains ql "6", "pow>=6"),
   (pyContains ql "防御力" && (pyContains ql "小于" || pyContains ql "以下") &&
      pyContains ql "2", "tou<=2"),
   (pyContains ql "防御力" && (pyContains ql "小于" || pyContains ql "以下") &&
      !pyContains ql "2" && pyContains ql "3", "tou<=3"),
   (pyContains ql "地落", "o:\"landfall\""),
   (pyContains ql "胜利" || pyContains ql "获胜", "(o:\"win\" OR o:\"end the game\")"),
   (pyContains ql "快攻" || pyContains ql "aggro", "mv<=3"),
   (pyContains ql "控制" || pyContains ql "control", "(o:\"counter\" OR o:\"destroy all\")"),
   (pyContains ql "组合技" || pyContains ql "combo", "(o:\"draw\" OR o:\"search\")"),
   (pyContains ql "小兵" || pyContains ql "dork", "mv<=2 t:creature"),
   (pyContains ql "大生物" || pyContains ql "fatty", "mv>=5 t:creature"),
   (pyContains ql "仇恨熊" || pyContains ql "hate bear",
      "is:bear (o:\"opponent\" OR o:\"can\x27t\")"),
   (pyContains ql "穿透" || pyContains ql "evasion",
      "(kw:flying OR kw:menace OR kw:unblockable)"),
   (pyContains ql "去除" || pyContains ql "removal",
      "(o:\"destroy\" OR o:\"exile\" OR o:\"damage\")"),
   (pyContains ql "小咒语" || pyContains ql "cantrip", "o:\"draw a card\" mv<=2"),
   (pyContains ql "清场" || pyContains ql "wrath",
      "(o:\"destroy all\" OR o:\"exile all\") t:sorcery"),
   (pyContains ql "烧" || pyContains ql "burn", "o:\"damage\" t:instant ci=r"),
   (pyContains ql "引擎" || pyContains ql "engine", "(o:\"draw\" OR o:\"search\") -t:land"),
   (pyContains ql "节奏" || pyContains ql "tempo",
      "(kw:haste OR o:\"return to owner\x27s hand\")"),
   (pyContains ql "价值" || pyContains ql "value", "(o:\"draw\" OR o:\"create\")"),
   (pyContains ql "法力曲线" || pyContains ql "curve", "mv<=4"),
   (pyContains ql "闪电击测试" || pyContains ql "bolt test", "tou<=3 t:creature"),
   (pyContains ql "容易被去除" || pyContains ql "dies to removal",
      "t:creature -kw:hexproof -kw:indestructible")]

/-- The English guard table of `fallback_mapping` after the color
block, in source order. -/
def en_table (ql : String) : List (Bool × String) :=
  [(pyContains ql "azorius", "ci=azorius"),
   (pyContains ql "simic", "ci=simic"),
   (pyContains ql "rakdos", "ci=rakdos"),
   (pyContains ql "bant", "ci=bant"),
   (pyContains ql "esper", "ci=esper"),
   (pyContains ql "grixis", "ci=grixis"),
   (pyContains ql "creature", "t:creature"),
   (pyContains ql "instant", "t:instant"),
   (pyContains ql "sorcery", "t:sorcery"),
   (pyContains ql "artifact", "t:artifact"),
   (pyContains ql "enchantment", "t:enchantment"),
   (pyContains ql "planeswalker", "t:planeswalker"),
   (pyContains ql "land", "t:land"),
   (pyContains ql "legend", "t:legend"),
   (pyContains ql "merfolk", "t:merfolk"),
   (pyContains ql "goblin", "t:goblin"),
   (pyContains ql "flying", "kw:flying"),
   (pyContains ql "haste", "kw:haste"),
   (pyContains ql "first strike", "kw:first strike"),
   (pyContains ql "vigilance", "kw:vigilance"),
   (pyContains ql "deathtouch", "kw:deathtouch"),
   (pyContains ql "lifelink", "kw:lifelink"),
   (pyContains ql "menace", "kw:menace"),
   (pyContains ql "reach", "kw:reach"),
   (pyContains ql "trample", "kw:trample"),
   (pyContains ql "vanilla", "is:vanilla"),
   (pyContains ql "bear", "is:bear"),
   (pyContains ql "split", "is:split"),
   (pyContains ql "transform", "is:transform"),
   (pyContains ql "meld", "is:meld"),
   (pyContains ql "dfc" || pyContains ql "double-faced", "is:dfc"),
   (pyContains ql "spell", "is:spell"),
   (pyContains ql "permanent", "is:permanent"),
   (pyContains ql "historic", "is:historic"),
   (pyContains ql "party", "is:party"),
   (pyContains ql "common", "r:common"),
   (pyContains ql "uncommon", "r:uncommon"),
   (pyContains ql "rare", "r:rare"),
   (pyContains ql "mythic", "r:mythic"),
   ((pyContains ql "mana" || pyContains ql "cost") &&
      (pyContains ql "under" || pyContains ql "less") && pyContains ql "3", "mv<=3"),
   ((pyContains ql "mana" || pyContains ql "cost") &&
      (pyContains ql "under" || pyContains ql "less") && !pyContains ql "3" &&
      pyContains ql "2", "mv<=2"),
   ((pyContains ql "mana" || pyContains ql "cost") &&
      (pyContains ql "under" || pyContains ql "less") && !pyContains ql "3" &&
      !pyContains ql "2" && pyContains ql "1", "mv<=1"),
   ((pyContains ql "mana" || pyContains ql "cost") &&
      !(pyContains ql "under" || pyContains ql "less") &&
      (pyContains ql "over" || pyContains ql "more") && pyContains ql "5", "mv>=5"),
   ((pyContains ql "mana" || pyContains ql "cost") &&
      !(pyContains ql "under" || pyContains ql "less") &&
      (pyContains ql "over" || pyContains ql "more") && !pyContains ql "5" &&
      pyContains ql "4", "mv>=4"),
   ((pyContains ql "mana" || pyContains ql "cost") &&
      !(pyContains ql "under" || pyContains ql "less") &&
      (pyContains ql "over" || pyContains ql "more") && !pyContains ql "5" &&
      !pyContains ql "4" && pyContains ql "6", "mv>=6"),
   (pyContains ql "power" && (pyContains ql "over" || pyContains ql "more") &&
      pyContains ql "4", "pow>=4"),
   (pyContains ql "power" && (pyContains ql "over" || pyContains ql "more") &&
      !pyContains ql "4" && pyContains ql "5", "pow>=5"),
   (pyContains ql "power" && (pyContains ql "over" || pyContains ql "more") &&
      !pyContains ql "4" && !pyContains ql "5" && pyContains ql "6", "pow>=6"),
   (pyContains ql "toughness" && (pyContains ql "under" || pyContains ql "less") &&
      pyContains ql "2", "tou<=2"),
   (pyContains ql "toughness" && (pyContains ql "under" || pyContains ql "less") &&
      !pyContains ql "2" && pyContains ql "3", "tou<=3"),
   (pyContains ql "landfall", "o:\"landfall\""),
   (pyContains ql "win" || pyContains ql "finisher", "(o:\"win\" OR o:\"end the game\")"),
   (pyContains ql "aggro", "mv<=3"),
   (pyContains ql "control", "(o:\"counter\" OR o:\"destroy all\")"),
   (pyContains ql "combo", "(o:\"draw\" OR o:\"search\")"),
   (pyContains ql "dork", "mv<=2 t:creature"),
   (pyContains ql "fatty", "mv>=5 t:creature"),
   (pyContains ql "hate bear", "is:bear (o:\"opponent\" OR o:\"can\x27t\")"),
   (pyContains ql "evasion", "(kw:flying OR kw:menace OR kw:unblockable)"),
   (pyContains ql "removal", "(o:\"destroy\" OR o:\"exile\" OR o:\"damage\")"),
   (pyContains ql "cantrip", "o:\"draw a card\" mv<=2"),
   (pyContains ql "wrath", "(o:\"destroy all\" OR o:\"exile all\") t:sorcery"),
   (pyContains ql "burn", "o:\"damage\" t:instant ci=r"),
   (pyContains ql "engine", "(o:\"draw\" OR o:\"search\") -t:land"),
   (pyContains ql "tempo", "(kw:haste OR o:\"return to owner\x27s hand\")"),
   (pyContains ql "value", "(o:\"draw\" OR o:\"create\")"),
   (pyContains ql "curve", "mv<=4"),
   (pyContains ql "bolt test", "tou<=3 t:creature"),
   (pyContains ql "dies to removal", "t:creature -kw:hexproof -kw:indestructible"),
   (pyContains ql "midrange", "mv>=3 mv<=5"),
   (pyContains ql "cheap", "mv<=2"),
   (pyContains ql "expensive", "mv>=5"),
   (pyContains ql "utility", "(o:\"draw\" OR o:\"search\" OR o:\"destroy\")"),
   (pyContains ql "finisher", "(o:\"win\" OR o:\"end the game\" OR pow>=6)"),
   (pyContains ql "staple", "(o:\"draw\" OR o:\"destroy\" OR o:\"counter\")")]

/-- The full ordered condition list built by `fallback_mapping` from
the lowercased query (source chooses the Chinese tables when
`language == "zh"` and the English tables otherwise). -/
def fallback_conditions (ql : String) (language : String) : List String :=
  if language = "zh" then
    color_conds (colors_found_zh ql) (pyContains ql "无色") (pyContains ql "多色") ++
      emitConds (zh_table ql)
  else
    color_conds (colors_found_en ql) (pyContains ql "colorless") (pyContains ql "multicolor") ++
      emitConds (en_table ql)

/-- `AIService.fallback_mapping(query, language)`: join the matched
fragments with spaces; with no match, return the original query
unchanged (for Scryfall fuzzy search). -/
def fallback_mapping (query : String) (language : String) : String :=
  let ql := pyLower query
  let conditions := fallback_conditions ql language
  if conditions.isEmpty then query else " ".intercalate conditions

example : fallback_mapping "wrath" "en" =
    "(o:\"destroy all\" OR o:\"exile all\") t:sorcery" := by decide

example : fallback_mapping "destroy all creatures" "en" = "t:creature" := by decide

example : fallback_mapping "green creatures" "en" = "ci=g t:creature" := by decide

example : fallback_mapping "RED and green creature" "en" = "ci=gr t:creature" := by decide

example : fallback_mapping "绿色生物" "zh" = "ci=g t:creature" := by decide

example : fallback_mapping "xyzzy" "en" = "xyzzy" := by decide

/-- The environment-configured (ambient) provider credentials read in
`AIService.__init__` from `AIHUBMIX_API_KEY` and `OPENAI_API_KEY`. -/
structure Env where
  aihubmix_api_key : Option String
  openai_api_key : Option String

/-- Stand-in for the Chinese prompt template of
`natural_language_to_scryfall`; the multi-page syntax reference text is
elided because every theorem below quantifies over the model-call
oracle, so the prompt content never matters — only that the processed
(normalized) query is embedded in it. -/
def zh_prompt (processed : String) : String :=
  "你是一个万智牌专家，请将用户的中文描述转换为Scryfall搜索语法。用户输入：" ++ processed

/-- Stand-in for the English prompt template (see `zh_prompt`). -/
def en_prompt (processed : String) : String :=
  "You are a Magic: The Gathering expert. Convert the description to Scryfall syntax. User input: "
    ++ processed

/-- `prompt = zh_prompt if language == "zh" else en_prompt`. -/
def mkPrompt (language processed : String) : String :=
  if language = "zh" then zh_prompt processed else en_prompt processed

/-- A model-call oracle abstracting `AIService._call_ai_api`: arguments
are prompt, api key, provider and optional model id; `some s` is the
trimmed completion text, `none` models the call raising (non-200
status, timeout, network error). -/
def CallOracle := String → String → String → Option String → Option String

/-- `AIService.natural_language_to_scryfall`.  Returns the pair
`(query string, provider used)` exactly as the source does, paired
with the list of credentials passed to `_call_ai_api`, in call order
(the trace lets theorems state which credentials were attempted).

Control flow of the source: preprocess the query; with an explicit
per-request `api_key`, call the model and on failure return the
rule-based `fallback_mapping` applied to the RAW query with provider
`"fallback"` (ambient keys are never reached); otherwise try the
ambient Aihubmix key, then the ambient OpenAI key, and if everything
failed or no key exists return the rule-based result with provider
`"fallback"`. -/
def natural_language_to_scryfall (oracle : CallOracle) (g : Glossary) (env : Env)
    (query language : String) (api_key : Option String) (provider : String)
    (model : Option String) : (String × String) × List String :=
  let processed := preprocess_mtg_query g query language
  let prompt := mkPrompt language processed
  match api_key with
  | some k =>
    match oracle prompt k provider model with
    | some s => ((s, provider), [k])
    | none => ((fallback_mapping query language, "fallback"), [k])
  | none =>
    match env.aihubmix_api_key with
    | some k1 =>
      match oracle prompt k1 "aihubmix" model with
      | some s => ((s, "aihubmix"), [k1])
      | none =>
        match env.openai_api_key with
        | some k2 =>
          match oracle prompt k2 "openai" model with
          | some s => ((s, "openai"), [k1, k2])
          | none => ((fallback_mapping query language, "fallback"), [k1, k2])
        | none => ((fallback_mapping query language, "fallback"), [k1])
    | none =>
      match env.openai_api_key with
      | some k2 =>
        match oracle prompt k2 "openai" model with
        | some s => ((s, "openai"), [k2])
        | none => ((fallback_mapping query language, "fallback"), [k2])
      | none => ((fallback_mapping query language, "fallback"), [])

/-- A raw Scryfall card record, restricted to the fields the service
reads (the spec's CardRecord: "fields read include name, mana_cost,
type_line, oracle_text, image_uris, scryfall_uri, rarity, cmc, power,
toughness, colors, released_at; any field may be absent").  `none`
models an absent key.  `cmc` distinguishes an absent key
(`none`) from a present JSON `null` (`some none`) because
`card.get('cmc', 0)` and `if cmc is not None` treat them differently.
`image_uris` is a stand-in string for the nested dict (only passed
through, never inspected). -/
structure CardRec where
  name : Option String
  mana_cost : Option String
  type_line : Option String
  oracle_text : Option String
  image_uris : Option String
  scryfall_uri : Option String
  rarity : Option String
  cmc : Option (Option Int)
  power : Option String
  toughness : Option String
  colors : Option (List String)
  released_at : Option String
  set : Option String
  artist : Option String
deriving DecidableEq

/-- A record with every key absent; concrete records below are built
from it. -/
def emptyCard : CardRec :=
  ⟨none, none, none, none, none, none, none, none, none, none, none, none, none, none⟩

/-- Python `sort_field not in cards[0]` for the record schema above:
the dict membership test on a raw Scryfall record.  Keys outside the
CardRecord schema (in particular `"released"`, `"color"` and
`"popularity"`, which are sort-field names, not record keys) are never
present. -/
def hasKey (c : CardRec) (k : String) : Bool :=
  if k = "name" then c.name.isSome
  else if k = "mana_cost" then c.mana_cost.isSome
  else if k = "type_line" then c.type_line.isSome
  else if k = "oracle_text" then c.oracle_text.isSome
  else if k = "image_uris" then c.image_uris.isSome
  else if k = "scryfall_uri" then c.scryfall_uri.isSome
  else if k = "rarity" then c.rarity.isSome
  else if k = "cmc" then c.cmc.isSome
  else if k = "power" then c.power.isSome
  else if k = "toughness" then c.toughness.isSome
  else if k = "colors" then c.colors.isSome
  else if k = "released_at" then c.released_at.isSome
  else if k = "set" then c.set.isSome
  else if k = "artist" then c.artist.isSome
  else false

/-- Parse helper for Python `int(str)`: optional surrounding spaces,
optional sign, at least one digit. -/
def digitsToNat : List Char → Option Nat
  | [] => none
  | ds => ds.foldl (fun acc c => match acc with
      | none => none
      | some n => if 48 ≤ c.toNat ∧ c.toNat ≤ 57 then some (n * 10 + (c.toNat - 48)) else none)
      (some 0)

/-- Model of Python `int(s)` for the strings appearing in card
power/toughness fields; `none` models `ValueError`. -/
def pyInt (s : String) : Option Int :=
  let t := s.data.dropWhile (fun c => c = ' ') |>.reverse.dropWhile (fun c => c = ' ') |>.reverse
  match t with
  | '-' :: ds => (digitsToNat ds).map (fun n => -(n : Int))
  | '+' :: ds => (digitsToNat ds).map (fun n => (n : Int))
  | ds => (digitsToNat ds).map (fun n => (n : Int))

/-- `get_power_value` inside `sort_cards`: `'*'` sorts as 0 and a
non-numeric power falls back to 0 via the `try/except`. -/
def get_power_value (c : CardRec) : Int :=
  let p := c.power.getD "0"
  if p = "*" then 0 else (pyInt p).getD 0

/-- `get_toughness_value` inside `sort_cards`. -/
def get_toughness_value (c : CardRec) : Int :=
  let t := c.toughness.getD "0"
  if t = "*" then 0 else (pyInt t).getD 0

/-- `card.get('cmc', 0)`: an absent key defaults to the number 0, a
present JSON `null` stays `None`. -/
def pyGetCmc (c : CardRec) : Option Int :=
  match c.cmc with
  | none => some 0
  | some v => v

/-- `get_cmc_value` inside `sort_cards`: `None` (and an absent key,
via the default 0) sort as 0. -/
def get_cmc_value (c : CardRec) : Int :=
  match pyGetCmc c with
  | none => 0
  | some v => v

/-- `get_released_value` inside `sort_cards`. -/
def get_released_value (c : CardRec) : String :=
  c.released_at.getD ""

/-- `get_rarity_value` inside `sort_cards` (`mythic=4 … common=1`,
anything else 0). -/
def get_rarity_value (c : CardRec) : Nat :=
  let r := pyLower (c.rarity.getD "")
  if r = "mythic" then 4
  else if r = "rare" then 3
  else if r = "uncommon" then 2
  else if r = "common" then 1
  else 0

/-- The fixed `popular_cards` name list inside `get_popularity_score`. -/
def popular_cards : List String :=
  ["sol ring", "lightning bolt", "counterspell", "cyclonic rift",
   "demonic tutor", "vampiric tutor", "mystical tutor", "enlightened tutor",
   "swords to plowshares", "path to exile", "wrath of god", "damnation",
   "rhystic study", "mystic remora", "smothering tithe", "esper sentinel",
   "dockside extortionist", "fierce guardianship", "deflecting swat"]

/-- `get_popularity_score` inside `sort_cards`, transcribed in the
source's accumulation order: rarity base (`rarity_scores.get(rarity, 50)`),
CMC bracket (`card.get('cmc', 0)` then `if cmc is not None`), type-line
bonuses, multicolor bonus, well-known-name bonus.  The Python float
score only ever holds integers, so the score is an `Int`. -/
def get_popularity_score (card : CardRec) : Int :=
  let rarity := pyLower (card.rarity.getD "")
  let score1 : Int :=
    if rarity = "mythic" then 100
    else if rarity = "rare" then 80
    else if rarity = "uncommon" then 60
    else if rarity = "common" then 40
    else 50
  let score2 : Int := score1 +
    (match pyGetCmc card with
     | none => 0
     | some cmc => if cmc ≤ 1 then 50 else if cmc ≤ 3 then 30 else if cmc ≤ 5 then 10 else 5)
  let type_line := pyLower (card.type_line.getD "")
  let score3 : Int := score2 +
    (if pyContains type_line "legendary" then 40 else 0) +
    (if pyContains type_line "creature" then 20 else 0) +
    (if pyContains type_line "instant" || pyContains type_line "sorcery" then 15 else 0)
  let score4 : Int := score3 + (if 1 < (card.colors.getD []).length then 25 else 0)
  score4 + (if popular_cards.contains (pyLower (card.name.getD "")) then 100 else 0)

/-- The `sort_mapping` dict of `sort_cards`: identity on the ten known
sort keys, `"name"` for anything else (`sort_mapping.get(sort, "name")`). -/
def sort_mapping (sort : String) : String :=
  if sort = "name" ∨ sort = "set" ∨ sort = "released" ∨ sort = "rarity" ∨
     sort = "color" ∨ sort = "cmc" ∨ sort = "power" ∨ sort = "toughness" ∨
     sort = "popularity" ∨ sort = "artist" then sort else "name"

/-- The string-valued dict lookup `x.get(sort_field, '')` of the final
`else` branch of `sort_cards`, on the record schema. -/
def pyGetStr (c : CardRec) (k : String) : String :=
  if k = "name" then c.name.getD ""
  else if k = "mana_cost" then c.mana_cost.getD ""
  else if k = "type_line" then c.type_line.getD ""
  else if k = "oracle_text" then c.oracle_text.getD ""
  else if k = "image_uris" then c.image_uris.getD ""
  else if k = "scryfall_uri" then c.scryfall_uri.getD ""
  else if k = "rarity" then c.rarity.getD ""
  else if k = "power" then c.power.getD ""
  else if k = "toughness" then c.toughness.getD ""
  else if k = "released_at" then c.released_at.getD ""
  else if k = "set" then c.set.getD ""
  else if k = "artist" then c.artist.getD ""
  else ""

/-- Python `sorted(cards, key=key, reverse=rev)` with a key function:
the stable insertion sort on the key order, with the comparator
flipped when `reverse` is set. -/
def pySorted (key : CardRec → α) (leB : α → α → Bool) (rev : Bool)
    (cards : List CardRec) : List CardRec :=
  if rev then List.insertionSort (fun a b => leB (key b) (key a) = true) cards
  else List.insertionSort (fun a b => leB (key a) (key b) = true) cards

/-- Int `<=` as a Bool comparator for `pySorted`. -/
def intLeB (a b : Int) : Bool := decide (a ≤ b)

/-- Nat `<=` as a Bool comparator for `pySorted`. -/
def natLeB (a b : Nat) : Bool := decide (a ≤ b)

/-- `ScryfallService.sort_cards(cards, sort, order)`: map the sort key
through `sort_mapping`, fall back to `"name"` when the mapped field is
not a key of the first record, then dispatch to the per-field
comparators. -/
def sort_cards (cards : List CardRec) (sort : String) (ord : String) : List CardRec :=
  let sf0 := sort_mapping sort
  let reverse := ord = "desc"
  let sf := match cards with
    | [] => sf0
    | c :: _ => if hasKey c sf0 then sf0 else "name"
  if sf = "power" then pySorted get_power_value intLeB reverse cards
  else if sf = "toughness" then pySorted get_toughness_value intLeB reverse cards
  else if sf = "cmc" then pySorted get_cmc_value intLeB reverse cards
  else if sf = "released" then pySorted get_released_value strLeB reverse cards
  else if sf = "rarity" then pySorted get_rarity_value natLeB reverse cards
  else if sf = "popularity" then pySorted get_popularity_score intLeB reverse cards
  else pySorted (fun c => pyGetStr c sf) strLeB reverse cards

/-- A Python exception value: `HTTPException(status, detail)` or any
other exception (carrying its message).  `HTTPException` subclasses
`Exception`, so a blanket `except Exception` catches both kinds. -/
inductive PyExc where
  | http (status : Nat) (detail : String)
  | other (msg : String)
deriving DecidableEq

/-- Python `str(e)` for the exceptions above (Starlette renders an
`HTTPException` as `"<status>: <detail>"`). -/
def excStr : PyExc → String
  | .http s d => toString s ++ ": " ++ d
  | .other m => m

/-- The request body of `POST /api/search` (`SearchRequest` pydantic
model); `sort` and `order` carry their pydantic defaults. -/
structure SearchRequestM where
  query : String
  language : String
  api_key : Option String
  model : Option String
  sort : String
  ord : String

/-- What the Scryfall collaborator hands back on success: the (already
ranked) records and the total count. -/
structure ScryResult where
  data : List CardRec
  total_cards : Nat

/-- The normalized `Card` response model built by the endpoint. -/
structure CardOut where
  name : String
  mana_cost : Option String
  type_line : String
  oracle_text : String
  image_uris : Option String
  scryfall_uri : String
  rarity : String
deriving DecidableEq

/-- `Card(...)` construction inside the endpoint, with the source's
`.get` defaults. -/
def toCardOut (c : CardRec) : CardOut :=
  ⟨c.name.getD "", c.mana_cost, c.type_line.getD "", c.oracle_text.getD "",
   c.image_uris, c.scryfall_uri.getD "", c.rarity.getD ""⟩

/-- The `SearchResponse` model. -/
structure SearchResponseM where
  cards : List CardOut
  scryfall_query : String
  total_cards : Nat
  api_provider : String
deriving DecidableEq

/-- The `POST /api/search` handler `search_cards` in `app/main.py`.
`scrySearch` abstracts `scryfall_service.search_cards` (network call
plus ranking); an `Except.error` is the method raising.  The whole
handler body sits in a `try` whose `except Exception` re-raises
every exception — including the `HTTPException(400)` raised for an
empty translation, since `HTTPException` subclasses `Exception` — as
`HTTPException(500, "搜索失败: " + str(e))`.  The result is the
HTTP outcome: `.ok` a response body, `.error (status, detail)` an
HTTP error response.  See `search_cards` below; `wrap500` is the
`except Exception` clause, which turns any exception `e` into
`HTTPException(500, "搜索失败: " + str(e))`. -/
def wrap500 : Except PyExc SearchResponseM → Except (Nat × String) SearchResponseM
  | Except.ok r => Except.ok r
  | Except.error e => Except.error (500, "搜索失败: " ++ excStr e)

/-- The body of the `try` block of the handler: translate, reject an
empty translation with `HTTPException(400)`, otherwise search and
build the response. -/
def search_cards_try_body (oracle : CallOracle) (g : Glossary) (env : Env)
    (scrySearch : String → String → String → Except PyExc ScryResult)
    (req : SearchRequestM) : Except PyExc SearchResponseM :=
  let tr := (natural_language_to_scryfall oracle g env req.query req.language req.api_key
    (if req.api_key.isSome then "aihubmix" else "demo") req.model).1
  if tr.1 = "" then Except.error (PyExc.http 400 "无法解析搜索查询")
  else
    match scrySearch tr.1 req.sort req.ord with
    | Except.error e => Except.error e
    | Except.ok result =>
      Except.ok ⟨result.data.map toCardOut, tr.1, result.total_cards, tr.2⟩

/-- The `POST /api/search` handler: the `try` body guarded by the
blanket `except Exception` (`wrap500`). -/
def search_cards (oracle : CallOracle) (g : Glossary) (env : Env)
    (scrySearch : String → String → String → Except PyExc ScryResult)
    (req : SearchRequestM) : Except (Nat × String) SearchResponseM :=
  wrap500 (search_cards_try_body oracle g env scrySearch req)

/-- UTF-8 encoding of one scalar value (`str.encode('utf-8')`,
per character). -/
def utf8EncodeChar (c : Char) : List Nat :=
  if c.toNat < 128 then [c.toNat]
  else if c.toNat < 2048 then [192 + c.toNat / 64, 128 + c.toNat % 64]
  else if c.toNat < 65536 then
    [224 + c.toNat / 4096, 128 + c.toNat / 64 % 64, 128 + c.toNat % 64]
  else
    [240 + c.toNat / 262144, 128 + c.toNat / 4096 % 64, 128 + c.toNat / 64 % 64,
     128 + c.toNat % 64]

/-- `s.encode('utf-8')` as a byte list. -/
def utf8Encode (s : String) : List Nat := (s.data.map utf8EncodeChar).flatten

/-- Is `b` a UTF-8 continuation byte? -/
def contB (b : Nat) : Bool := decide (128 ≤ b ∧ b < 192)

/-- Strict UTF-8 decoding (`bytes.decode('utf-8')`) as a byte-level
state machine over (pending continuation count, partial scalar value,
minimal legal scalar for the current sequence, remaining bytes):
rejects stray, missing or excess continuation bytes, overlong
encodings (via the per-length minimum), surrogates and out-of-range
scalars, exactly as CPython does; `none` models
`UnicodeDecodeError`.  Returns the decoded scalar values. -/
def utf8Aux : Nat → Nat → Nat → List Nat → Option (List Nat)
  | 0, _, _, [] => some []
  | Nat.succ _, _, _, [] => none
  | 0, _, _, b :: rest =>
    if b < 128 then (utf8Aux 0 0 0 rest).map (fun ns => b :: ns)
    else if b < 192 then none
    else if b < 224 then utf8Aux 1 (b - 192) 128 rest
    else if b < 240 then utf8Aux 2 (b - 224) 2048 rest
    else if b < 248 then utf8Aux 3 (b - 240) 65536 rest
    else none
  | 1, val, min, b :: rest =>
    if contB b ∧ min ≤ val * 64 + (b - 128) ∧
        (val * 64 + (b - 128) < 55296 ∨
          (57343 < val * 64 + (b - 128) ∧ val * 64 + (b - 128) < 1114112)) then
      (utf8Aux 0 0 0 rest).map (fun ns => (val * 64 + (b - 128)) :: ns)
    else none
  | Nat.succ (Nat.succ m), val, min, b :: rest =>
    if contB b then utf8Aux (Nat.succ m) (val * 64 + (b - 128)) min rest else none

/-- `bytes.decode('utf-8')` as characters. -/
def utf8Decode (bs : List Nat) : Option (List Char) :=
  (utf8Aux 0 0 0 bs).map (fun ns => ns.map Char.ofNat)

/-- The base64 alphabet, by sextet value. -/
def b64AlphaChar (v : Nat) : Char :=
  if v < 26 then Char.ofNat (65 + v)
  else if v < 52 then Char.ofNat (97 + v - 26)
  else if v < 62 then Char.ofNat (48 + v - 52)
  else if v = 62 then Char.ofNat 43
  else Char.ofNat 47

/-- Value of a base64 alphabet character (`none` for non-alphabet
characters, including the padding sign). -/
def b64CharVal (c : Char) : Option Nat :=
  if 65 ≤ c.toNat ∧ c.toNat ≤ 90 then some (c.toNat - 65)
  else if 97 ≤ c.toNat ∧ c.toNat ≤ 122 then some (c.toNat - 97 + 26)
  else if 48 ≤ c.toNat ∧ c.toNat ≤ 57 then some (c.toNat - 48 + 52)
  else if c.toNat = 43 then some 62
  else if c.toNat = 47 then some 63
  else none

/-- `base64.b64encode` on a byte list, as characters. -/
def b64encodeL : List Nat → List Char
  | [] => []
  | [b1] => [b64AlphaChar (b1 / 4), b64AlphaChar (b1 % 4 * 16), '=', '=']
  | [b1, b2] =>
    [b64AlphaChar (b1 / 4), b64AlphaChar (b1 % 4 * 16 + b2 / 16), b64AlphaChar (b2 % 16 * 4), '=']
  | b1 :: b2 :: b3 :: rest =>
    b64AlphaChar (b1 / 4) :: b64AlphaChar (b1 % 4 * 16 + b2 / 16) ::
      b64AlphaChar (b2 % 16 * 4 + b3 / 64) :: b64AlphaChar (b3 % 64) :: b64encodeL rest

/-- `base64.b64decode` on the strings this code produces: groups of
four alphabet characters, with `=` padding only in a final group;
`none` models `binascii.Error`. -/
def b64decodeL : List Char → Option (List Nat)
  | [] => some []
  | c1 :: c2 :: c3 :: c4 :: rest =>
    (b64CharVal c1).bind fun v1 =>
    (b64CharVal c2).bind fun v2 =>
    if c3 = '=' then
      if c4 = '=' ∧ rest = [] then some [v1 * 4 + v2 / 16] else none
    else
      (b64CharVal c3).bind fun v3 =>
      if c4 = '=' then
        if rest = [] then some [v1 * 4 + v2 / 16, v2 % 16 * 16 + v3 / 4] else none
      else
        (b64CharVal c4).bind fun v4 =>
        (b64decodeL rest).map
          (fun bs => (v1 * 4 + v2 / 16) :: (v2 % 16 * 16 + v3 / 4) :: (v3 % 4 * 64 + v4) :: bs)
  | _ => none

/-- `SimpleEncryption.SECRET_KEY.encode('utf-8')` — the hardcoded key
is pure ASCII, so its UTF-8 bytes are its character codes. -/
def secret_key_bytes : List Nat := "mtg-ai-secret-key-2024".data.map Char.toNat

/-- The XOR loop shared by `SimpleEncryption.encrypt` and
`SimpleEncryption.decrypt`: byte `i` is XORed with
`key[i % len(key)]`. -/
def xorWithKey (key : List Nat) : Nat → List Nat → List Nat
  | _, [] => []
  | i, b :: bs => (b ^^^ key.getD (i % key.length) 0) :: xorWithKey key (i + 1) bs

namespace SimpleEncryption

/-- `SimpleEncryption.encrypt(data)`: JSON-serialize (abstracted as
`dumps`, quantified over in the theorems), encode UTF-8, XOR with the
cyclic key, base64-encode. -/
def encrypt {α : Type} (dumps : α → String) (v : α) : String :=
  String.mk (b64encodeL (xorWithKey secret_key_bytes 0 (utf8Encode (dumps v))))

/-- `SimpleEncryption.decrypt(encrypted_data)`: base64-decode, XOR
with the cyclic key, decode UTF-8, JSON-parse (abstracted as `loads`);
`none` models the `except` path re-raising. -/
def decrypt {α : Type} (loads : String → Option α) (s : String) : Option α :=
  match b64decodeL s.data with
  | none => none
  | some bs =>
    match utf8Decode (xorWithKey secret_key_bytes 0 bs) with
    | none => none
    | some cs => loads (String.mk cs)

end SimpleEncryption

/-- `String.mk` is left inverse to `String.data`. -/
theorem strMk_data (s : String) : String.mk s.data = s := by
  cases s
  rfl

/-- If `key` does not occur in `c :: rest` then it is neither a prefix
of it nor an occurrence further right. -/
theorem infB_cons_false {key : List Char} {c : Char} {rest : List Char}
    (h : infB key (c :: rest) = false) :
    key.isPrefixOf (c :: rest) = false ∧ infB key rest = false := by
  have h2 := h
  unfold infB at h2
  exact Bool.or_eq_false_iff.mp h2

/-- A pattern that does not occur in the text is never replaced. -/
theorem replaceAllFuel_fixed_of_absent (key rep : List Char) (fuel : Nat) (s : List Char)
    (h : infB key s = false) : replaceAllFuel key rep fuel s = s := by
  induction fuel generalizing s with
  | zero => cases s <;> rfl
  | succ n ih =>
    cases s with
    | nil => rfl
    | cons c rest =>
      have h2 := infB_cons_false h
      unfold replaceAllFuel
      rw [if_neg]
      · rw [ih rest h2.2]
      · intro hcontra
        rw [h2.1] at hcontra
        exact Bool.false_ne_true hcontra.2

/-- A replacement table none of whose keys occurs in `s` leaves `s`
unchanged. -/
theorem applyReplacements_fixed (rules : List (String × String)) (s : String)
    (h : ∀ p ∈ rules, pyContains s p.1 = false) : applyReplacements rules s = s := by
  induction rules with
  | nil => rfl
  | cons p t ih =>
    unfold applyReplacements
    rw [List.foldl_cons]
    have h1 : pyReplace s p.1 p.2 = s := by
      unfold pyReplace
      rw [replaceAllFuel_fixed_of_absent _ _ _ _ (h p (List.mem_cons_self p t))]
    rw [h1]
    exact ih (fun q hq => h q (List.mem_cons_of_mem p hq))

/-- A model-call oracle whose every call fails. -/
def oracleFail : CallOracle := fun _ _ _ _ => none

/-- An empty term glossary (the English path never reads the glossary,
so theorems about English inputs instantiated at `gEmpty` hold for
every glossary). -/
def gEmpty : Glossary := ⟨[], []⟩

/-- Claim C1: if an explicit per-request credential is supplied and
the model call made with it fails, the orchestrator returns the
rule-based translation with providerUsed `"fallback"`, and the
explicit credential is the only credential attempted — the ambient
environment keys are never consulted (the conclusion does not depend
on `env`). -/
theorem C1_explicit_credential_failure_short_circuits
    (oracle : CallOracle) (g : Glossary) (env : Env) (query language k provider : String)
    (model : Option String)
    (h : oracle (mkPrompt language (preprocess_mtg_query g query language)) k provider model
          = none) :
    natural_language_to_scryfall oracle g env query language (some k) provider model
      = ((fallback_mapping query language, "fallback"), [k]) := by
  unfold natural_language_to_scryfall
  simp [h]

/-- Witness for C1: a concrete run with a failing explicit credential
and both ambient credentials configured still yields `"fallback"` and
attempts only the explicit key. -/
theorem C1_witness :
    natural_language_to_scryfall oracleFail gEmpty ⟨some "ambient-key", some "openai-key"⟩
        "wrath" "en" (some "sk-user") "aihubmix" none
      = ((fallback_mapping "wrath" "en", "fallback"), ["sk-user"]) :=
  C1_explicit_credential_failure_short_circuits oracleFail gEmpty
    ⟨some "ambient-key", some "openai-key"⟩ "wrath" "en" "sk-user" "aihubmix" none rfl

/-- Counterexample to claim C2: with no credentials at all the
orchestrator falls back, and it applies the rule-based translator to
the RAW query `"wrath"`, whose translation differs from the
translation of the preprocessed query (`preprocess_en "wrath" =
"destroy all creatures"`), so the fallback is not applied to the
normalized text. -/
theorem C2_counterexample :
    natural_language_to_scryfall oracleFail gEmpty ⟨none, none⟩ "wrath" "en" none "demo" none
        = ((fallback_mapping "wrath" "en", "fallback"), []) ∧
      fallback_mapping "wrath" "en"
        ≠ fallback_mapping (preprocess_mtg_query gEmpty "wrath" "en") "en" :=
  ⟨rfl, by decide⟩

/-- Claim C2 (amended): whenever the orchestrator reports providerUsed
`"fallback"` (and the requested provider name is not itself the
literal `"fallback"`, as in every call site), the returned query
string is the rule-based translation of the RAW user query — not of
the normalized (preprocessed) text. -/
theorem C2_amended_fallback_uses_raw_query
    (oracle : CallOracle) (g : Glossary) (env : Env) (query language provider : String)
    (api_key model : Option String) (hp : provider ≠ "fallback")
    (hres : ((natural_language_to_scryfall oracle g env query language api_key provider
                model).1).2 = "fallback") :
    ((natural_language_to_scryfall oracle g env query language api_key provider model).1).1
      = fallback_mapping query language := by
  obtain ⟨ak, ok⟩ := env
  unfold natural_language_to_scryfall at hres ⊢
  rcases api_key with _ | k
  · rcases ak with _ | k1
    · rcases ok with _ | k2
      · rfl
      · rcases h2 : oracle (mkPrompt language (preprocess_mtg_query g query language)) k2
            "openai" model with _ | s
        · simp [h2]
        · simp [h2] at hres
    · rcases h1 : oracle (mkPrompt language (preprocess_mtg_query g query language)) k1
          "aihubmix" model with _ | s
      · rcases ok with _ | k2
        · simp [h1]
        · rcases h2 : oracle (mkPrompt language (preprocess_mtg_query g query language)) k2
              "openai" model with _ | s2
          · simp [h1, h2]
          · simp [h1, h2] at hres
      · simp [h1] at hres
  · rcases h0 : oracle (mkPrompt language (preprocess_mtg_query g query language)) k
        provider model with _ | s
    · simp [h0]
    · simp [h0] at hres
      exact absurd hres hp

/-- Witness for the amended C2: a concrete no-credential run reaches
the fallback and returns the rule-based translation of the raw query. -/
theorem C2_amended_witness :
    ((natural_language_to_scryfall oracleFail gEmpty ⟨none, none⟩ "wrath" "en" none "demo"
        none).1).1 = fallback_mapping "wrath" "en" :=
  C2_amended_fallback_uses_raw_query oracleFail gEmpty ⟨none, none⟩ "wrath" "en" "demo"
    none none (by decide) rfl

/-- Counterexample to claim C7: `preprocess_en "hate bears"` is an
already-normalized English string (it is an output of English
normalization), yet normalizing it again changes it — the expansion
`"disruptive"` produced in the first pass contains the abbreviation
trigger `"pt"`, whose expansion in turn contains `"pow"` and `"tou"`,
so substitutions fire a second time. -/
theorem C7_counterexample :
    preprocess_en (preprocess_en "hate bears") ≠ preprocess_en "hate bears" := by decide

/-- Claim C7 (amended): English normalization is idempotent only on
strings free of every slang and abbreviation trigger key: if no key of
either table occurs in `s`, then normalizing `s` returns it unchanged.
(The unrestricted claim fails because some expansions contain trigger
keys; see the counterexample.) -/
theorem C7_amended_trigger_free_fixed (s : String)
    (h : ∀ p ∈ english_slang_mapping ++ abbreviation_mapping, pyContains s p.1 = false) :
    preprocess_en s = s := by
  unfold preprocess_en
  rw [applyReplacements_fixed english_slang_mapping s
    (fun p hp => h p (List.mem_append_left _ hp))]
  exact applyReplacements_fixed abbreviation_mapping s
    (fun p hp => h p (List.mem_append_right _ hp))

/-- Witness for the amended C7: `"dragon deck"` contains no trigger
key and is left unchanged. -/
theorem C7_amended_witness : preprocess_en "dragon deck" = "dragon deck" :=
  C7_amended_trigger_free_fixed "dragon deck" (by decide)

/-- Claim C9: a glossary regex rule that fails (its `re.sub` raises on
every text) is skipped — removing it from the rule list does not
change the preprocessor's output, and the remaining rules still run.
Together with the embedding being a total Lean function, this is the
claim's "never raises; a failing rule degrades to leaving the text
unchanged". -/
theorem C9_failing_rule_skipped (rules1 rules2 : List (String → Option String))
    (r : String → Option String) (terms : List (String × String)) (input : String)
    (hfail : ∀ t, r t = none) :
    preprocess_input ⟨rules1 ++ r :: rules2, terms⟩ input "zh"
      = preprocess_input ⟨rules1 ++ rules2, terms⟩ input "zh" := by
  unfold preprocess_input preprocess_zh
  simp [List.foldl_append, hfail]

/-- A regex rule that always fails. -/
def alwaysFailRule : String → Option String := fun _ => none

/-- Witness for C9: dropping a concrete failing rule does not change
the output on a concrete Chinese query. -/
theorem C9_witness :
    preprocess_input ⟨[alwaysFailRule], []⟩ "蓝色瞬间" "zh"
      = preprocess_input ⟨[], []⟩ "蓝色瞬间" "zh" :=
  C9_failing_rule_skipped [] [] alwaysFailRule [] "蓝色瞬间" (fun _ => rfl)

/-- `pySorted` only permutes its input (both directions are an
insertion sort). -/
theorem pySorted_perm {α : Type} (key : CardRec → α) (leB : α → α → Bool) (rev : Bool)
    (cards : List CardRec) : (pySorted key leB rev cards).Perm cards := by
  unfold pySorted
  split
  · exact List.perm_insertionSort _ _
  · exact List.perm_insertionSort _ _

/-- Claim C4: for every record list, sort key and order, the ranker's
output is a permutation of its input — nothing is dropped, nothing is
duplicated, only the order changes. -/
theorem C4_sort_cards_perm (cards : List CardRec) (sort ord : String) :
    (sort_cards cards sort ord).Perm cards := by
  unfold sort_cards
  dsimp only
  split_ifs <;> exact pySorted_perm _ _ _ _

/-- First record of the C8 counterexample: the lexicographically later
name but the earlier release date. -/
def cRel1 : CardRec :=
  ⟨some "beta", none, none, none, none, none, none, none, none, none, none,
   some "2019-05-05", none, none⟩

/-- Second record of the C8 counterexample: the lexicographically
earlier name but the later release date. -/
def cRel2 : CardRec :=
  ⟨some "alpha", none, none, none, none, none, none, none, none, none, none,
   some "2020-01-01", none, none⟩

/-- Counterexample to claim C8: sorting this non-empty list by
`"released"` ascending returns the records in NAME order — the record
with the later `released_at` comes first — because the field-presence
check looks for a dict key literally called `"released"`, which card
records never carry (the date lives under `"released_at"`), so
`sort_cards` silently falls back to the name comparator. -/
theorem C8_counterexample :
    sort_cards [cRel1, cRel2] "released" "asc" = [cRel2, cRel1] ∧
      strLeB (cRel2.released_at.getD "") (cRel1.released_at.getD "") = false := by
  exact ⟨by decide, by decide⟩

/-- Claim C8 (amended): sorting by `"released"` behaves identically to
sorting by `"name"` on every record list (in both orders): the
lexicographic `released_at` comparator exists in the code but is
unreachable for records of the CardRecord schema, because the presence
check tests the key `"released"`, which is never a record key. -/
theorem C8_amended_released_equals_name_sort (cards : List CardRec) (ord : String) :
    sort_cards cards "released" ord = sort_cards cards "name" ord := by
  cases cards with
  | nil => simp [sort_cards, pySorted]
  | cons c rest => simp [sort_cards, sort_mapping, hasKey]

/-- The claim's rarity base (spec order: common=40, uncommon=60,
rare=80, mythic=100, unrecognized=50). -/
def spec_rarity_base (card : CardRec) : Int :=
  if pyLower (card.rarity.getD "") = "common" then 40
  else if pyLower (card.rarity.getD "") = "uncommon" then 60
  else if pyLower (card.rarity.getD "") = "rare" then 80
  else if pyLower (card.rarity.getD "") = "mythic" then 100
  else 50

/-- The claim's mana-value bracket bonus, as stated: a missing cmc
(absent key, and likewise a null value) contributes 0. -/
def spec_cmc_bonus_claimed (card : CardRec) : Int :=
  match card.cmc with
  | none => 0
  | some none => 0
  | some (some cmc) =>
    if cmc ≤ 1 then 50 else if cmc ≤ 3 then 30 else if cmc ≤ 5 then 10 else 5

/-- The amended mana-value bracket bonus: an ABSENT cmc key defaults
to the number 0 and therefore lands in the `≤ 1` bracket (+50); only
an explicit JSON null contributes 0. -/
def spec_cmc_bonus_amended (card : CardRec) : Int :=
  match card.cmc with
  | none => 50
  | some none => 0
  | some (some cmc) =>
    if cmc ≤ 1 then 50 else if cmc ≤ 3 then 30 else if cmc ≤ 5 then 10 else 5

/-- The claim's type-line bonus (+40 legendary, +20 creature, +15
instant-or-sorcery). -/
def spec_type_bonus (card : CardRec) : Int :=
  (if pyContains (pyLower (card.type_line.getD "")) "legendary" then 40 else 0) +
    (if pyContains (pyLower (card.type_line.getD "")) "creature" then 20 else 0) +
    (if pyContains (pyLower (card.type_line.getD "")) "instant"
        || pyContains (pyLower (card.type_line.getD "")) "sorcery" then 15 else 0)

/-- The claim's multicolor bonus (+25 with more than one color). -/
def spec_multicolor_bonus (card : CardRec) : Int :=
  if 1 < (card.colors.getD []).length then 25 else 0

/-- The claim's well-known-name bonus (+100 when the lowercase name is
on the fixed list). -/
def spec_name_bonus (card : CardRec) : Int :=
  if popular_cards.contains (pyLower (card.name.getD "")) then 100 else 0

/-- The popularity formula exactly as claim C3 states it. -/
def claimed_popularity_score (card : CardRec) : Int :=
  spec_rarity_base card + spec_cmc_bonus_claimed card + spec_type_bonus card +
    spec_multicolor_bonus card + spec_name_bonus card

/-- The popularity formula with the amended missing-cmc clause. -/
def amended_popularity_score (card : CardRec) : Int :=
  spec_rarity_base card + spec_cmc_bonus_amended card + spec_type_bonus card +
    spec_multicolor_bonus card + spec_name_bonus card

/-- The two rarity lookup chains (source dict order vs. claim order)
agree on every rarity string. -/
theorem rarity_chain_eq (r : String) :
    (if r = "mythic" then (100 : Int)
     else if r = "rare" then 80
     else if r = "uncommon" then 60
     else if r = "common" then 40
     else 50)
      = (if r = "common" then 40
         else if r = "uncommon" then 60
         else if r = "rare" then 80
         else if r = "mythic" then 100
         else 50) := by
  split_ifs <;> simp_all

/-- Counterexample to claim C3: a record whose `cmc` key is ABSENT
(here: the all-absent record) scores 100 — the absent cmc defaults to
0 and collects the +50 `≤ 1` bracket bonus on top of the base 50 for
an unrecognized rarity — while the claim's formula, whose missing cmc
contributes 0, gives 50. -/
theorem C3_counterexample :
    get_popularity_score emptyCard = 100 ∧ claimed_popularity_score emptyCard = 50 ∧
      get_popularity_score emptyCard ≠ claimed_popularity_score emptyCard := by
  exact ⟨by decide, by decide, by decide⟩

/-- The claim's worked example: mythic legendary creature, cmc 1, two
colors, name not on the list. -/
def exampleMythicCard : CardRec :=
  ⟨some "examplar", none, some "Legendary Creature — Human Wizard", none, none, none,
   some "mythic", some (some 1), none, none, some ["U", "R"], none, none, none⟩

/-- Claim C3 (amended): the synthesized popularity score equals the
claimed weighted sum with the bracket clause amended — an absent cmc
key is treated as cmc 0 and contributes +50, only an explicit null
contributes 0 — and the claim's worked example scores exactly 235. -/
theorem C3_amended_popularity_formula :
    (∀ card, get_popularity_score card = amended_popularity_score card) ∧
      get_popularity_score exampleMythicCard = 235 := by
  constructor
  · intro card
    obtain ⟨nm, mc, tl, ot, iu, su, ra, cmc, pw, tg, co, rl, se, ar⟩ := card
    simp only [get_popularity_score, amended_popularity_score, spec_rarity_base,
      spec_cmc_bonus_amended, spec_type_bonus, spec_multicolor_bonus, spec_name_bonus,
      pyGetCmc]
    rw [← rarity_chain_eq]
    rcases cmc with _ | cv
    · norm_num
      ring
    · rcases cv with _ | v
      · norm_num
        ring
      · ring
  · decide

/-- Whatever error the handler returns, its status is 500: the blanket
`except Exception` rewraps every exception — including the handler's
own `HTTPException(400)` — into a 500. -/
theorem wrap500_error_status (b : Except PyExc SearchResponseM) (st : Nat) (msg : String)
    (h : wrap500 b = Except.error (st, msg)) : st = 500 := by
  cases b with
  | ok r => simp [wrap500] at h
  | error e =>
    simp [wrap500] at h
    exact h.1.symm

/-- Claim C5 (documenting the code bug): a request whose translation
is empty (empty query, no credentials anywhere, so the fallback
returns the query verbatim) is answered with HTTP 500 — the intended
`HTTPException(400, "无法解析搜索查询")` is caught by the handler's own
`except Exception` and rewrapped as
`HTTPException(500, "搜索失败: <str(e)>")` —
so the caller sees a 500-class error, not the 400 the claim
(and the `raise` statement itself) intends. -/
theorem C5_empty_translation_yields_500 :
    search_cards oracleFail gEmpty ⟨none, none⟩
        (fun _ _ _ => Except.error (PyExc.other "unreachable"))
        ⟨"", "en", none, none, "name", "asc"⟩
      = Except.error (500, "搜索失败: 400: 无法解析搜索查询") := by
  rfl

/-- The fragments a guard table can emit are (in order) a sublist of
its fragment column. -/
theorem emitConds_sublist (t : List (Bool × String)) :
    (emitConds t).Sublist (t.map Prod.snd) := by
  induction t with
  | nil => exact List.Sublist.refl _
  | cons p tl ih =>
    unfold emitConds
    cases hp : p.1
    · simp only [hp, if_neg Bool.false_ne_true, List.nil_append, List.map_cons]
      exact ih.cons _
    · simp only [hp, if_pos rfl, List.singleton_append, List.map_cons]
      exact ih.cons₂ _

/-- The fragment column of the Chinese guard table (independent of the
query). -/
def zh_vocab : List String := (zh_table "").map Prod.snd

/-- The fragment column of the English guard table. -/
def en_vocab : List String := (en_table "").map Prod.snd

theorem zh_table_snd (ql : String) : (zh_table ql).map Prod.snd = zh_vocab := rfl

theorem en_table_snd (ql : String) : (en_table ql).map Prod.snd = en_vocab := rfl

/-- The detected Chinese colors are always (in order) among g,u,r,b,w. -/
theorem colors_found_zh_sublist (ql : String) :
    (colors_found_zh ql).Sublist ["g", "u", "r", "b", "w"] := emitConds_sublist _

/-- The detected English colors are always (in order) among g,u,r,b,w. -/
theorem colors_found_en_sublist (ql : String) :
    (colors_found_en ql).Sublist ["g", "u", "r", "b", "w"] := emitConds_sublist _

/-- For every possible multi-color detection result: the combined
`ci=` fragment is not a fragment of either guard table, and no
single-color `ci=` fragment equals it or occurs in either guard
table.  (Checked over all 32 sublists of the five color letters.) -/
theorem combo_fragment_fresh :
    ∀ cf ∈ (["g", "u", "r", "b", "w"] : List String).sublists, 2 ≤ cf.length →
      ("ci=" ++ sortedJoin cf) ∉ zh_vocab ∧ ("ci=" ++ sortedJoin cf) ∉ en_vocab ∧
        ∀ c ∈ cf, ("ci=" ++ c) ≠ ("ci=" ++ sortedJoin cf) ∧
          ("ci=" ++ c) ∉ zh_vocab ∧ ("ci=" ++ c) ∉ en_vocab := by decide

/-- The detected color list of `fallback_mapping` for a given language
(`colors_found` in the source). -/
def colorsFoundOf (lang ql : String) : List String :=
  if lang = "zh" then colors_found_zh ql else colors_found_en ql

/-- A guard table never emits a fragment outside its fragment column. -/
theorem emitConds_count_zero (t : List (Bool × String)) (x : String)
    (hx : x ∉ t.map Prod.snd) : (emitConds t).count x = 0 :=
  List.count_eq_zero.mpr (fun hm => hx ((emitConds_sublist t).subset hm))

/-- Claim C6: whenever two or more color words are detected in a query
(either language), the condition list of the rule-based translator
contains the combined fragment `ci=<sorted concatenated letters>`
exactly once, and contains no separate single-color `ci=<letter>`
fragment for any detected color. -/
theorem C6_multicolor_single_fragment (q lang : String)
    (hlen : 2 ≤ (colorsFoundOf lang (pyLower q)).length) :
    (fallback_conditions (pyLower q) lang).count
        ("ci=" ++ sortedJoin (colorsFoundOf lang (pyLower q))) = 1 ∧
      ∀ c ∈ colorsFoundOf lang (pyLower q),
        ("ci=" ++ c) ∉ fallback_conditions (pyLower q) lang := by
  by_cases hz : lang = "zh"
  · subst hz
    have hcf : colorsFoundOf "zh" (pyLower q) = colors_found_zh (pyLower q) := rfl
    rw [hcf] at hlen ⊢
    have hsub := colors_found_zh_sublist (pyLower q)
    have key := combo_fragment_fresh _ (List.mem_sublists.mpr hsub) hlen
    have hcc : color_conds (colors_found_zh (pyLower q)) (pyContains (pyLower q) "无色")
        (pyContains (pyLower q) "多色")
        = ["ci=" ++ sortedJoin (colors_found_zh (pyLower q))] := by
      unfold color_conds
      rw [if_pos (show 1 < (colors_found_zh (pyLower q)).length from hlen)]
    constructor
    · unfold fallback_conditions
      rw [if_pos rfl, List.count_append, hcc,
        emitConds_count_zero _ _ (by rw [zh_table_snd]; exact key.1)]
      simp
    · intro c hc habs
      unfold fallback_conditions at habs
      rw [if_pos rfl, hcc] at habs
      rcases List.mem_append.mp habs with hin | hin
      · exact (key.2.2 c hc).1 (List.mem_singleton.mp hin)
      · exact (key.2.2 c hc).2.1
          (zh_table_snd (pyLower q) ▸ (emitConds_sublist _).subset hin)
  · have hcf : colorsFoundOf lang (pyLower q) = colors_found_en (pyLower q) := by
      unfold colorsFoundOf
      rw [if_neg hz]
    rw [hcf] at hlen ⊢
    have hsub := colors_found_en_sublist (pyLower q)
    have key := combo_fragment_fresh _ (List.mem_sublists.mpr hsub) hlen
    have hcc : color_conds (colors_found_en (pyLower q)) (pyContains (pyLower q) "colorless")
        (pyContains (pyLower q) "multicolor")
        = ["ci=" ++ sortedJoin (colors_found_en (pyLower q))] := by
      unfold color_conds
      rw [if_pos (show 1 < (colors_found_en (pyLower q)).length from hlen)]
    constructor
    · unfold fallback_conditions
      rw [if_neg hz, List.count_append, hcc,
        emitConds_count_zero _ _ (by rw [en_table_snd]; exact key.2.1)]
      simp
    · intro c hc habs
      unfold fallback_conditions at habs
      rw [if_neg hz, hcc] at habs
      rcases List.mem_append.mp habs with hin | hin
      · exact (key.2.2 c hc).1 (List.mem_singleton.mp hin)
      · exact (key.2.2 c hc).2.2
          (en_table_snd (pyLower q) ▸ (emitConds_sublist _).subset hin)

/-- Witness for C6: `"red green creatures"` detects two colors and its
condition list contains `"ci=gr"` exactly once. -/
theorem C6_witness :
    2 ≤ (colorsFoundOf "en" (pyLower "red green creatures")).length ∧
      (fallback_conditions (pyLower "red green creatures") "en").count
        ("ci=" ++ sortedJoin (colorsFoundOf "en" (pyLower "red green creatures"))) = 1 :=
  ⟨by decide, (C6_multicolor_single_fragment "red green creatures" "en" (by decide)).1⟩


/-- XOR with the cyclic key is an involution (byte-wise
`(b ^^^ k) ^^^ k = b`). -/
theorem xorWithKey_involutive (key : List Nat) (i : Nat) (bs : List Nat) :
    xorWithKey key i (xorWithKey key i bs) = bs := by
  induction bs generalizing i with
  | nil => rfl
  | cons b t ih =>
    simp only [xorWithKey]
    rw [Nat.xor_cancel_right, ih]

/-- A list of bytes below 256 yields entries below 256 under `getD`
with default 0. -/
theorem getD_lt_256 (key : List Nat) (hk : ∀ b ∈ key, b < 256) (j : Nat) :
    key.getD j 0 < 256 := by
  induction key generalizing j with
  | nil =>
    rw [List.getD_nil]
    omega
  | cons a t ih =>
    cases j with
    | zero =>
      rw [List.getD_cons_zero]
      exact hk a (List.mem_cons_self a t)
    | succ n =>
      rw [List.getD_cons_succ]
      exact ih (fun b hb => hk b (List.mem_cons_of_mem a hb)) n

/-- XOR with a byte-valued key keeps bytes below 256. -/
theorem xorWithKey_bounds (key : List Nat) (hk : ∀ b ∈ key, b < 256) :
    ∀ (bs : List Nat), (∀ b ∈ bs, b < 256) → ∀ (i : Nat),
      ∀ b ∈ xorWithKey key i bs, b < 256 := by
  intro bs
  induction bs with
  | nil =>
    intro _ i b hb2
    simp [xorWithKey] at hb2
  | cons a t ih =>
    intro hb i b hb2
    simp only [xorWithKey] at hb2
    rcases List.mem_cons.mp hb2 with hEq | hMem
    · subst hEq
      have h1 : a < 256 := hb a (List.mem_cons_self a t)
      have h2 := getD_lt_256 key hk (i % key.length)
      have h3 := @Nat.xor_lt_two_pow a (key.getD (i % key.length) 0) 8 h1 h2
      simpa using h3
    · exact ih (fun x hx => hb x (List.mem_cons_of_mem a hx)) (i + 1) b hMem

/-- Every Unicode scalar value fits in the 4-byte UTF-8 range. -/
theorem char_toNat_lt (c : Char) : c.toNat < 1114112 := by
  rcases c.valid with h | h
  · have h2 : c.val.toNat < 55296 := h
    simp only [Char.toNat]
    omega
  · obtain ⟨h1, h2⟩ := h
    have h3 : c.val.toNat < 1114112 := h2
    simp only [Char.toNat]
    omega

/-- A Unicode scalar value is never a surrogate. -/
theorem char_not_surrogate (c : Char) : c.toNat < 55296 ∨ 57343 < c.toNat := by
  rcases c.valid with h | h
  · exact Or.inl h
  · exact Or.inr h.1

/-- UTF-8 encoding produces bytes. -/
theorem utf8EncodeChar_bounds (c : Char) : ∀ b ∈ utf8EncodeChar c, b < 256 := by
  intro b hb
  have hlt := char_toNat_lt c
  unfold utf8EncodeChar at hb
  split_ifs at hb with h1 h2 h3 <;> simp at hb <;> omega

/-- `utf8Encode` produces bytes. -/
theorem utf8Encode_bounds (s : String) : ∀ b ∈ utf8Encode s, b < 256 := by
  intro b hb
  unfold utf8Encode at hb
  simp only [List.mem_flatten, List.mem_map] at hb
  obtain ⟨l, ⟨c, _, rfl⟩, hbl⟩ := hb
  exact utf8EncodeChar_bounds c b hbl

/-- One idle step of the UTF-8 state machine (definitional unfolding). -/
theorem utf8Aux_idle_cons (b : Nat) (rest : List Nat) :
    utf8Aux 0 0 0 (b :: rest)
      = if b < 128 then (utf8Aux 0 0 0 rest).map (fun ns => b :: ns)
        else if b < 192 then none
        else if b < 224 then utf8Aux 1 (b - 192) 128 rest
        else if b < 240 then utf8Aux 2 (b - 224) 2048 rest
        else if b < 248 then utf8Aux 3 (b - 240) 65536 rest
        else none := rfl

/-- The final continuation byte of a sequence (definitional
unfolding). -/
theorem utf8Aux_last_cons (val mn b : Nat) (rest : List Nat) :
    utf8Aux 1 val mn (b :: rest)
      = if contB b ∧ mn ≤ val * 64 + (b - 128) ∧
            (val * 64 + (b - 128) < 55296 ∨
              (57343 < val * 64 + (b - 128) ∧ val * 64 + (b - 128) < 1114112)) then
          (utf8Aux 0 0 0 rest).map (fun ns => (val * 64 + (b - 128)) :: ns)
        else none := rfl

/-- A non-final continuation byte, three pending. -/
theorem utf8Aux_cont3 (val mn b : Nat) (rest : List Nat) (h : contB b = true) :
    utf8Aux 3 val mn (b :: rest) = utf8Aux 2 (val * 64 + (b - 128)) mn rest := by
  have step : utf8Aux 3 val mn (b :: rest)
      = if contB b then utf8Aux 2 (val * 64 + (b - 128)) mn rest else none := rfl
  rw [step, if_pos h]

/-- A non-final continuation byte, two pending. -/
theorem utf8Aux_cont2 (val mn b : Nat) (rest : List Nat) (h : contB b = true) :
    utf8Aux 2 val mn (b :: rest) = utf8Aux 1 (val * 64 + (b - 128)) mn rest := by
  have step : utf8Aux 2 val mn (b :: rest)
      = if contB b then utf8Aux 1 (val * 64 + (b - 128)) mn rest else none := rfl
  rw [step, if_pos h]

/-- The state machine consumes one encoded character and continues. -/
theorem utf8Aux_char (c : Char) (rest : List Nat) :
    utf8Aux 0 0 0 (utf8EncodeChar c ++ rest)
      = (utf8Aux 0 0 0 rest).map (fun ns => c.toNat :: ns) := by
  have hlt := char_toNat_lt c
  have hsur := char_not_surrogate c
  unfold utf8EncodeChar
  by_cases h1 : c.toNat < 128
  · rw [if_pos h1, List.singleton_append, utf8Aux_idle_cons, if_pos h1]
  · by_cases h2 : c.toNat < 2048
    · rw [if_neg h1, if_pos h2, List.cons_append, List.cons_append, List.nil_append,
        utf8Aux_idle_cons]
      rw [if_neg (by omega), if_neg (by omega), if_pos (by omega), utf8Aux_last_cons]
      have e5 : (192 + c.toNat / 64 - 192) * 64 + (128 + c.toNat % 64 - 128) = c.toNat := by
        omega
      rw [e5]
      rw [if_pos ⟨by simp only [contB, decide_eq_true_eq]; omega, by omega, by omega⟩]
    · by_cases h3 : c.toNat < 65536
      · rw [if_neg h1, if_neg h2, if_pos h3, List.cons_append, List.cons_append,
          List.cons_append, List.nil_append, utf8Aux_idle_cons]
        rw [if_neg (by omega), if_neg (by omega), if_neg (by omega), if_pos (by omega),
          utf8Aux_cont2 _ _ _ _ (by simp only [contB, decide_eq_true_eq]; omega),
          utf8Aux_last_cons]
        have e5 : ((224 + c.toNat / 4096 - 224) * 64 + (128 + c.toNat / 64 % 64 - 128)) * 64 +
            (128 + c.toNat % 64 - 128) = c.toNat := by omega
        rw [e5]
        rw [if_pos ⟨by simp only [contB, decide_eq_true_eq]; omega, by omega, by omega⟩]
      · rw [if_neg h1, if_neg h2, if_neg h3, List.cons_append, List.cons_append,
          List.cons_append, List.cons_append, List.nil_append, utf8Aux_idle_cons]
        rw [if_neg (by omega), if_neg (by omega), if_neg (by omega), if_neg (by omega),
          if_pos (by omega),
          utf8Aux_cont3 _ _ _ _ (by simp only [contB, decide_eq_true_eq]; omega),
          utf8Aux_cont2 _ _ _ _ (by simp only [contB, decide_eq_true_eq]; omega),
          utf8Aux_last_cons]
        have e5 : (((240 + c.toNat / 262144 - 240) * 64 + (128 + c.toNat / 4096 % 64 - 128)) *
            64 + (128 + c.toNat / 64 % 64 - 128)) * 64 + (128 + c.toNat % 64 - 128)
            = c.toNat := by omega
        rw [e5]
        rw [if_pos ⟨by simp only [contB, decide_eq_true_eq]; omega, by omega, by omega⟩]

/-- The state machine inverts UTF-8 encoding on scalar sequences. -/
theorem utf8Aux_encode (cs : List Char) :
    utf8Aux 0 0 0 ((cs.map utf8EncodeChar).flatten) = some (cs.map Char.toNat) := by
  induction cs with
  | nil => rfl
  | cons c t ih =>
    rw [List.map_cons, List.flatten_cons, utf8Aux_char, ih, List.map_cons]
    rfl

/-- `utf8Decode` inverts `utf8Encode` on strings. -/
theorem utf8Decode_utf8Encode (s : String) : utf8Decode (utf8Encode s) = some s.data := by
  unfold utf8Decode utf8Encode
  rw [utf8Aux_encode]
  have hcomp : Char.ofNat ∘ Char.toNat = id := funext Char.ofNat_toNat
  show some ((s.data.map Char.toNat).map Char.ofNat) = some s.data
  rw [List.map_map, hcomp, List.map_id]

/-- Decoding a base64 alphabet character recovers its sextet. -/
theorem b64CharVal_alpha : ∀ v, v < 64 → b64CharVal (b64AlphaChar v) = some v := by decide

/-- Alphabet characters are never the padding sign. -/
theorem b64AlphaChar_ne_pad : ∀ v, v < 64 → b64AlphaChar v ≠ '=' := by decide

/-- Base64 decoding inverts base64 encoding on byte lists. -/
theorem b64_roundtrip (bs : List Nat) (h : ∀ b ∈ bs, b < 256) :
    b64decodeL (b64encodeL bs) = some bs := by
  match bs with
  | [] => rfl
  | [b1] =>
    have hb1 : b1 < 256 := h b1 (by simp)
    have k1 := b64CharVal_alpha (b1 / 4) (by omega)
    have k2 := b64CharVal_alpha (b1 % 4 * 16) (by omega)
    simp only [b64encodeL, b64decodeL, k1, k2, Option.some_bind]
    simp only [if_pos rfl, and_self, if_true, Option.some.injEq, List.cons.injEq, and_true]
    omega
  | [b1, b2] =>
    have hb1 : b1 < 256 := h b1 (by simp)
    have hb2 : b2 < 256 := h b2 (by simp)
    have k1 := b64CharVal_alpha (b1 / 4) (by omega)
    have k2 := b64CharVal_alpha (b1 % 4 * 16 + b2 / 16) (by omega)
    have k3 := b64CharVal_alpha (b2 % 16 * 4) (by omega)
    have k3ne := b64AlphaChar_ne_pad (b2 % 16 * 4) (by omega)
    simp only [b64encodeL, b64decodeL, k1, k2, Option.some_bind]
    rw [if_neg k3ne]
    simp only [k3, Option.some_bind, if_pos rfl, if_true, Option.some.injEq,
      List.cons.injEq, and_true]
    omega
  | b1 :: b2 :: b3 :: rest =>
    have hb1 : b1 < 256 := h b1 (by simp)
    have hb2 : b2 < 256 := h b2 (by simp)
    have hb3 : b3 < 256 := h b3 (by simp)
    have ih := b64_roundtrip rest (fun b hb => h b (by simp [hb]))
    have k1 := b64CharVal_alpha (b1 / 4) (by omega)
    have k2 := b64CharVal_alpha (b1 % 4 * 16 + b2 / 16) (by omega)
    have k3 := b64CharVal_alpha (b2 % 16 * 4 + b3 / 64) (by omega)
    have k4 := b64CharVal_alpha (b3 % 64) (by omega)
    have k3ne := b64AlphaChar_ne_pad (b2 % 16 * 4 + b3 / 64) (by omega)
    have k4ne := b64AlphaChar_ne_pad (b3 % 64) (by omega)
    simp only [b64encodeL, b64decodeL, k1, k2, Option.some_bind]
    rw [if_neg k3ne]
    simp only [k3, Option.some_bind]
    rw [if_neg k4ne]
    simp only [k4, Option.some_bind, ih, Option.map_some', Option.some.injEq,
      List.cons.injEq, and_true]
    omega

/-- Claim C10: for every value whose JSON serialization round-trips —
`loads (dumps v) = some v`, with the JSON layer abstracted as the
serializer pair the theorem quantifies over, this being exactly the
claim's own hypothesis — decrypting the encryption of the value
returns the value: the XOR-plus-base64 obfuscation is lossless,
including for multi-byte UTF-8 content (the UTF-8 encode/decode steps
are modelled byte-exactly). -/
theorem C10_encrypt_decrypt_roundtrip {α : Type} (dumps : α → String)
    (loads : String → Option α) (v : α) (h : loads (dumps v) = some v) :
    SimpleEncryption.decrypt loads (SimpleEncryption.encrypt dumps v) = some v := by
  unfold SimpleEncryption.encrypt SimpleEncryption.decrypt
  have hk : ∀ b ∈ secret_key_bytes, b < 256 := by decide
  have hb := xorWithKey_bounds secret_key_bytes hk (utf8Encode (dumps v))
    (utf8Encode_bounds (dumps v)) 0
  dsimp only
  rw [b64_roundtrip _ hb]
  dsimp only
  rw [xorWithKey_involutive, utf8Decode_utf8Encode]
  dsimp only
  rw [strMk_data]
  exact h

/-- Witness for C10: a concrete multi-byte round trip through the full
pipeline, instantiating the serializer pair with one whose round-trip
hypothesis holds definitionally. -/
theorem C10_witness :
    SimpleEncryption.decrypt (fun s => some s)
        (SimpleEncryption.encrypt (fun s : String => s) "蓝色 instant")
      = some "蓝色 instant" :=
  C10_encrypt_decrypt_roundtrip (fun s => s) (fun s => some s) "蓝色 instant" rfl
